import Mathlib

/-!
Verification of the Kaia transaction-type module
(`blockchain/types/tx_internal_data.go`): transaction-type tags and their
bitmask classification, the variant registry constructor, intrinsic-gas
computation with its uint64 overflow guards, the static per-type gas table,
fee-delegation fee splitting, and the EIP-7702 delegation validator.

Machine integers are embedded as `Nat` with explicit `% 2^64` at every Go
operation that can wrap; `big.Int` values are embedded as `Int`; fallible
functions return `Except`.  Definitions follow the Go source line by line;
a few collaborators that the excerpt only declares (the `params` constant
table, the `account` package, `AccessList.StorageKeys`, the per-variant
constructors) are modelled from the specification and marked as such.
-/

/-- 2^64, the modulus of Go's unsigned 64-bit arithmetic. -/
def UInt64Mod : Nat := 18446744073709551616

/-- math.MaxUint64 = 2^64 - 1. -/
def MaxUint64 : Nat := 18446744073709551615

/-- Go: `type TxType uint16`; tags are 16-bit values. -/
abbrev TxType := Nat

/-- Go: `const SubTxTypeBits uint = 3`. -/
def SubTxTypeBits : Nat := 3

/-- TxType constants, computed from the source's iota scheme
(`iota << SubTxTypeBits` for the family, +1 fee-delegated, +2 with-ratio). -/
def TxTypeLegacyTransaction : TxType := 0

/-- Family 1 base: value transfer (1 <<< 3). -/
def TxTypeValueTransfer : TxType := 8

/-- Family 1 fee-delegated sub-variant. -/
def TxTypeFeeDelegatedValueTransfer : TxType := 9

/-- Family 1 fee-delegated-with-ratio sub-variant. -/
def TxTypeFeeDelegatedValueTransferWithRatio : TxType := 10

/-- Family 2 base: value transfer with memo (2 <<< 3). -/
def TxTypeValueTransferMemo : TxType := 16

/-- Family 2 fee-delegated sub-variant. -/
def TxTypeFeeDelegatedValueTransferMemo : TxType := 17

/-- Family 2 fee-delegated-with-ratio sub-variant. -/
def TxTypeFeeDelegatedValueTransferMemoWithRatio : TxType := 18

/-- Family 3 base: account creation (3 <<< 3); declared but disabled. -/
def TxTypeAccountCreation : TxType := 24

/-- Family 4 base: account update (4 <<< 3). -/
def TxTypeAccountUpdate : TxType := 32

/-- Family 4 fee-delegated sub-variant. -/
def TxTypeFeeDelegatedAccountUpdate : TxType := 33

/-- Family 4 fee-delegated-with-ratio sub-variant. -/
def TxTypeFeeDelegatedAccountUpdateWithRatio : TxType := 34

/-- Family 5 base: smart-contract deploy (5 <<< 3). -/
def TxTypeSmartContractDeploy : TxType := 40

/-- Family 5 fee-delegated sub-variant. -/
def TxTypeFeeDelegatedSmartContractDeploy : TxType := 41

/-- Family 5 fee-delegated-with-ratio sub-variant. -/
def TxTypeFeeDelegatedSmartContractDeployWithRatio : TxType := 42

/-- Family 6 base: smart-contract execution (6 <<< 3). -/
def TxTypeSmartContractExecution : TxType := 48

/-- Family 6 fee-delegated sub-variant. -/
def TxTypeFeeDelegatedSmartContractExecution : TxType := 49

/-- Family 6 fee-delegated-with-ratio sub-variant. -/
def TxTypeFeeDelegatedSmartContractExecutionWithRatio : TxType := 50

/-- Family 7 base: cancel (7 <<< 3). -/
def TxTypeCancel : TxType := 56

/-- Family 7 fee-delegated sub-variant. -/
def TxTypeFeeDelegatedCancel : TxType := 57

/-- Family 7 fee-delegated-with-ratio sub-variant. -/
def TxTypeFeeDelegatedCancelWithRatio : TxType := 58

/-- Family 8 base: batch (8 <<< 3); declared but disabled. -/
def TxTypeBatch : TxType := 64

/-- Family 9 base: chain-data anchoring (9 <<< 3). -/
def TxTypeChainDataAnchoring : TxType := 72

/-- Family 9 fee-delegated sub-variant. -/
def TxTypeFeeDelegatedChainDataAnchoring : TxType := 73

/-- Family 9 fee-delegated-with-ratio sub-variant. -/
def TxTypeFeeDelegatedChainDataAnchoringWithRatio : TxType := 74

/-- Sentinel marking the end of the Kaia-typed block (10 <<< 3). -/
def TxTypeKaiaLast : TxType := 80

/-- Ethereum typed transaction: access list (0x7801). -/
def TxTypeEthereumAccessList : TxType := 30721

/-- Ethereum typed transaction: dynamic fee (0x7802). -/
def TxTypeEthereumDynamicFee : TxType := 30722

/-- Ethereum typed transaction: set code (0x7804). -/
def TxTypeEthereumSetCode : TxType := 30724

/-- Sentinel marking the end of the Ethereum-typed block (0x7805). -/
def TxTypeEthereumLast : TxType := 30725

/-- Go: `const EthereumTxTypeEnvelope = TxType(0x78)`. -/
def EthereumTxTypeEnvelope : TxType := 120

/-- Go: `TxFeeDelegationBitMask TxTypeMask = 1`. -/
def TxFeeDelegationBitMask : Nat := 1

/-- Go: `TxFeeDelegationWithRatioBitMask TxTypeMask = 2`. -/
def TxFeeDelegationWithRatioBitMask : Nat := 2

/-- Every named TxType constant of the source's declaration block. -/
def declaredTxTypes : List TxType :=
  [TxTypeLegacyTransaction,
   TxTypeValueTransfer, TxTypeFeeDelegatedValueTransfer, TxTypeFeeDelegatedValueTransferWithRatio,
   TxTypeValueTransferMemo, TxTypeFeeDelegatedValueTransferMemo, TxTypeFeeDelegatedValueTransferMemoWithRatio,
   TxTypeAccountCreation,
   TxTypeAccountUpdate, TxTypeFeeDelegatedAccountUpdate, TxTypeFeeDelegatedAccountUpdateWithRatio,
   TxTypeSmartContractDeploy, TxTypeFeeDelegatedSmartContractDeploy, TxTypeFeeDelegatedSmartContractDeployWithRatio,
   TxTypeSmartContractExecution, TxTypeFeeDelegatedSmartContractExecution, TxTypeFeeDelegatedSmartContractExecutionWithRatio,
   TxTypeCancel, TxTypeFeeDelegatedCancel, TxTypeFeeDelegatedCancelWithRatio,
   TxTypeBatch,
   TxTypeChainDataAnchoring, TxTypeFeeDelegatedChainDataAnchoring, TxTypeFeeDelegatedChainDataAnchoringWithRatio,
   TxTypeKaiaLast,
   TxTypeEthereumAccessList, TxTypeEthereumDynamicFee, TxTypeEthereumSetCode,
   TxTypeEthereumLast]

/-- Go: `func (t TxType) IsLegacyTransaction() bool { return t == TxTypeLegacyTransaction }`. -/
def TxType.IsLegacyTransaction (t : TxType) : Bool :=
  t == TxTypeLegacyTransaction

/-- Go: `func (t TxType) IsEthTypedTransaction() bool { return (t & 0xff00) == (EthereumTxTypeEnvelope << 8) }`. -/
def TxType.IsEthTypedTransaction (t : TxType) : Bool :=
  (t &&& 0xff00) == (EthereumTxTypeEnvelope <<< 8)

/-- Go: `func (t TxType) IsEthereumTransaction() bool`. -/
def TxType.IsEthereumTransaction (t : TxType) : Bool :=
  t.IsLegacyTransaction || t.IsEthTypedTransaction

/-- Go: `func (t TxType) IsFeeDelegatedTransaction() bool`; `TxTypeMask(t)` is
the uint8 truncation of the 16-bit tag, hence `t % 256`. -/
def TxType.IsFeeDelegatedTransaction (t : TxType) : Bool :=
  (((t % 256) &&& (TxFeeDelegationBitMask ||| TxFeeDelegationWithRatioBitMask)) != 0)
    && !t.IsEthereumTransaction

/-- Go: `func (t TxType) IsFeeDelegatedWithRatioTransaction() bool`. -/
def TxType.IsFeeDelegatedWithRatioTransaction (t : TxType) : Bool :=
  (((t % 256) &&& TxFeeDelegationWithRatioBitMask) != 0) && !t.IsEthereumTransaction

/-- Go: `func (t TxType) String() string` (the 27-case switch). -/
def TxType.string (t : TxType) : String :=
  if t = TxTypeLegacyTransaction then "TxTypeLegacyTransaction"
  else if t = TxTypeValueTransfer then "TxTypeValueTransfer"
  else if t = TxTypeFeeDelegatedValueTransfer then "TxTypeFeeDelegatedValueTransfer"
  else if t = TxTypeFeeDelegatedValueTransferWithRatio then "TxTypeFeeDelegatedValueTransferWithRatio"
  else if t = TxTypeValueTransferMemo then "TxTypeValueTransferMemo"
  else if t = TxTypeFeeDelegatedValueTransferMemo then "TxTypeFeeDelegatedValueTransferMemo"
  else if t = TxTypeFeeDelegatedValueTransferMemoWithRatio then "TxTypeFeeDelegatedValueTransferMemoWithRatio"
  else if t = TxTypeAccountCreation then "TxTypeAccountCreation"
  else if t = TxTypeAccountUpdate then "TxTypeAccountUpdate"
  else if t = TxTypeFeeDelegatedAccountUpdate then "TxTypeFeeDelegatedAccountUpdate"
  else if t = TxTypeFeeDelegatedAccountUpdateWithRatio then "TxTypeFeeDelegatedAccountUpdateWithRatio"
  else if t = TxTypeSmartContractDeploy then "TxTypeSmartContractDeploy"
  else if t = TxTypeFeeDelegatedSmartContractDeploy then "TxTypeFeeDelegatedSmartContractDeploy"
  else if t = TxTypeFeeDelegatedSmartContractDeployWithRatio then "TxTypeFeeDelegatedSmartContractDeployWithRatio"
  else if t = TxTypeSmartContractExecution then "TxTypeSmartContractExecution"
  else if t = TxTypeFeeDelegatedSmartContractExecution then "TxTypeFeeDelegatedSmartContractExecution"
  else if t = TxTypeFeeDelegatedSmartContractExecutionWithRatio then "TxTypeFeeDelegatedSmartContractExecutionWithRatio"
  else if t = TxTypeCancel then "TxTypeCancel"
  else if t = TxTypeFeeDelegatedCancel then "TxTypeFeeDelegatedCancel"
  else if t = TxTypeFeeDelegatedCancelWithRatio then "TxTypeFeeDelegatedCancelWithRatio"
  else if t = TxTypeBatch then "TxTypeBatch"
  else if t = TxTypeChainDataAnchoring then "TxTypeChainDataAnchoring"
  else if t = TxTypeFeeDelegatedChainDataAnchoring then "TxTypeFeeDelegatedChainDataAnchoring"
  else if t = TxTypeFeeDelegatedChainDataAnchoringWithRatio then "TxTypeFeeDelegatedChainDataAnchoringWithRatio"
  else if t = TxTypeEthereumAccessList then "TxTypeEthereumAccessList"
  else if t = TxTypeEthereumDynamicFee then "TxTypeEthereumDynamicFee"
  else if t = TxTypeEthereumSetCode then "TxTypeEthereumSetCode"
  else "UndefinedTxType"

/-- Modelled from the spec: the concrete variant structs
(`tx_internal_data_*.go`) are outside the excerpt; per the spec each variant
is a polymorphic value whose type introspection returns its family tag, and
only that introspection matters for the registry claims, so a variant is
embedded as its tag. -/
structure TxInternalData where
  typeTag : TxType
deriving DecidableEq, Repr

/-- Type introspection (`Type()` of the `TxInternalData` interface). -/
def TxInternalData.Type (d : TxInternalData) : TxType :=
  d.typeTag

/-- Modelled from the spec: `newTxInternalDataLegacy` returns the zero-valued legacy variant. -/
def newTxInternalDataLegacy : TxInternalData := ⟨TxTypeLegacyTransaction⟩

/-- Modelled from the spec: zero-valued value-transfer variant. -/
def newTxInternalDataValueTransfer : TxInternalData := ⟨TxTypeValueTransfer⟩

/-- Modelled from the spec: zero-valued fee-delegated value-transfer variant. -/
def newTxInternalDataFeeDelegatedValueTransfer : TxInternalData := ⟨TxTypeFeeDelegatedValueTransfer⟩

/-- Modelled from the spec: zero-valued fee-delegated value-transfer-with-ratio variant. -/
def NewTxInternalDataFeeDelegatedValueTransferWithRatio : TxInternalData := ⟨TxTypeFeeDelegatedValueTransferWithRatio⟩

/-- Modelled from the spec: zero-valued value-transfer-memo variant. -/
def newTxInternalDataValueTransferMemo : TxInternalData := ⟨TxTypeValueTransferMemo⟩

/-- Modelled from the spec: zero-valued fee-delegated value-transfer-memo variant. -/
def newTxInternalDataFeeDelegatedValueTransferMemo : TxInternalData := ⟨TxTypeFeeDelegatedValueTransferMemo⟩

/-- Modelled from the spec: zero-valued fee-delegated value-transfer-memo-with-ratio variant. -/
def newTxInternalDataFeeDelegatedValueTransferMemoWithRatio : TxInternalData := ⟨TxTypeFeeDelegatedValueTransferMemoWithRatio⟩

/-- Modelled from the spec: zero-valued account-update variant. -/
def newTxInternalDataAccountUpdate : TxInternalData := ⟨TxTypeAccountUpdate⟩

/-- Modelled from the spec: zero-valued fee-delegated account-update variant. -/
def newTxInternalDataFeeDelegatedAccountUpdate : TxInternalData := ⟨TxTypeFeeDelegatedAccountUpdate⟩

/-- Modelled from the spec: zero-valued fee-delegated account-update-with-ratio variant. -/
def newTxInternalDataFeeDelegatedAccountUpdateWithRatio : TxInternalData := ⟨TxTypeFeeDelegatedAccountUpdateWithRatio⟩

/-- Modelled from the spec: zero-valued smart-contract-deploy variant. -/
def newTxInternalDataSmartContractDeploy : TxInternalData := ⟨TxTypeSmartContractDeploy⟩

/-- Modelled from the spec: zero-valued fee-delegated smart-contract-deploy variant. -/
def newTxInternalDataFeeDelegatedSmartContractDeploy : TxInternalData := ⟨TxTypeFeeDelegatedSmartContractDeploy⟩

/-- Modelled from the spec: zero-valued fee-delegated smart-contract-deploy-with-ratio variant. -/
def newTxInternalDataFeeDelegatedSmartContractDeployWithRatio : TxInternalData := ⟨TxTypeFeeDelegatedSmartContractDeployWithRatio⟩

/-- Modelled from the spec: zero-valued smart-contract-execution variant. -/
def newTxInternalDataSmartContractExecution : TxInternalData := ⟨TxTypeSmartContractExecution⟩

/-- Modelled from the spec: zero-valued fee-delegated smart-contract-execution variant. -/
def newTxInternalDataFeeDelegatedSmartContractExecution : TxInternalData := ⟨TxTypeFeeDelegatedSmartContractExecution⟩

/-- Modelled from the spec: zero-valued fee-delegated smart-contract-execution-with-ratio variant. -/
def newTxInternalDataFeeDelegatedSmartContractExecutionWithRatio : TxInternalData := ⟨TxTypeFeeDelegatedSmartContractExecutionWithRatio⟩

/-- Modelled from the spec: zero-valued cancel variant. -/
def newTxInternalDataCancel : TxInternalData := ⟨TxTypeCancel⟩

/-- Modelled from the spec: zero-valued fee-delegated cancel variant. -/
def newTxInternalDataFeeDelegatedCancel : TxInternalData := ⟨TxTypeFeeDelegatedCancel⟩

/-- Modelled from the spec: zero-valued fee-delegated cancel-with-ratio variant. -/
def newTxInternalDataFeeDelegatedCancelWithRatio : TxInternalData := ⟨TxTypeFeeDelegatedCancelWithRatio⟩

/-- Modelled from the spec: zero-valued chain-data-anchoring variant. -/
def newTxInternalDataChainDataAnchoring : TxInternalData := ⟨TxTypeChainDataAnchoring⟩

/-- Modelled from the spec: zero-valued fee-delegated chain-data-anchoring variant. -/
def newTxInternalDataFeeDelegatedChainDataAnchoring : TxInternalData := ⟨TxTypeFeeDelegatedChainDataAnchoring⟩

/-- Modelled from the spec: zero-valued fee-delegated chain-data-anchoring-with-ratio variant. -/
def newTxInternalDataFeeDelegatedChainDataAnchoringWithRatio : TxInternalData := ⟨TxTypeFeeDelegatedChainDataAnchoringWithRatio⟩

/-- Modelled from the spec: zero-valued Ethereum access-list variant. -/
def newTxInternalDataEthereumAccessList : TxInternalData := ⟨TxTypeEthereumAccessList⟩

/-- Modelled from the spec: zero-valued Ethereum dynamic-fee variant. -/
def newTxInternalDataEthereumDynamicFee : TxInternalData := ⟨TxTypeEthereumDynamicFee⟩

/-- Modelled from the spec: zero-valued Ethereum set-code variant. -/
def newTxInternalDataEthereumSetCode : TxInternalData := ⟨TxTypeEthereumSetCode⟩

/-- Go: `func NewTxInternalData(t TxType) (TxInternalData, error)`; the switch
is embedded as a sequential equality chain in the source's case order.  The
`TxTypeAccountCreation` case is commented out in the source, so that tag falls
through to `errUndefinedTxType`, as do `TxTypeBatch` and the two sentinels. -/
def NewTxInternalData (t : TxType) : Except String TxInternalData :=
  if t = TxTypeLegacyTransaction then .ok newTxInternalDataLegacy
  else if t = TxTypeValueTransfer then .ok newTxInternalDataValueTransfer
  else if t = TxTypeFeeDelegatedValueTransfer then .ok newTxInternalDataFeeDelegatedValueTransfer
  else if t = TxTypeFeeDelegatedValueTransferWithRatio then .ok NewTxInternalDataFeeDelegatedValueTransferWithRatio
  else if t = TxTypeValueTransferMemo then .ok newTxInternalDataValueTransferMemo
  else if t = TxTypeFeeDelegatedValueTransferMemo then .ok newTxInternalDataFeeDelegatedValueTransferMemo
  else if t = TxTypeFeeDelegatedValueTransferMemoWithRatio then .ok newTxInternalDataFeeDelegatedValueTransferMemoWithRatio
  -- case TxTypeAccountCreation: commented out in the source
  else if t = TxTypeAccountUpdate then .ok newTxInternalDataAccountUpdate
  else if t = TxTypeFeeDelegatedAccountUpdate then .ok newTxInternalDataFeeDelegatedAccountUpdate
  else if t = TxTypeFeeDelegatedAccountUpdateWithRatio then .ok newTxInternalDataFeeDelegatedAccountUpdateWithRatio
  else if t = TxTypeSmartContractDeploy then .ok newTxInternalDataSmartContractDeploy
  else if t = TxTypeFeeDelegatedSmartContractDeploy then .ok newTxInternalDataFeeDelegatedSmartContractDeploy
  else if t = TxTypeFeeDelegatedSmartContractDeployWithRatio then .ok newTxInternalDataFeeDelegatedSmartContractDeployWithRatio
  else if t = TxTypeSmartContractExecution then .ok newTxInternalDataSmartContractExecution
  else if t = TxTypeFeeDelegatedSmartContractExecution then .ok newTxInternalDataFeeDelegatedSmartContractExecution
  else if t = TxTypeFeeDelegatedSmartContractExecutionWithRatio then .ok newTxInternalDataFeeDelegatedSmartContractExecutionWithRatio
  else if t = TxTypeCancel then .ok newTxInternalDataCancel
  else if t = TxTypeFeeDelegatedCancel then .ok newTxInternalDataFeeDelegatedCancel
  else if t = TxTypeFeeDelegatedCancelWithRatio then .ok newTxInternalDataFeeDelegatedCancelWithRatio
  else if t = TxTypeChainDataAnchoring then .ok newTxInternalDataChainDataAnchoring
  else if t = TxTypeFeeDelegatedChainDataAnchoring then .ok newTxInternalDataFeeDelegatedChainDataAnchoring
  else if t = TxTypeFeeDelegatedChainDataAnchoringWithRatio then .ok newTxInternalDataFeeDelegatedChainDataAnchoringWithRatio
  else if t = TxTypeEthereumAccessList then .ok newTxInternalDataEthereumAccessList
  else if t = TxTypeEthereumDynamicFee then .ok newTxInternalDataEthereumDynamicFee
  else if t = TxTypeEthereumSetCode then .ok newTxInternalDataEthereumSetCode
  else .error "undefined tx type"

/-- The tags `NewTxInternalData` actually constructs: the declared enumeration
minus the disabled `TxTypeAccountCreation` and `TxTypeBatch` and the two
sentinels, in the switch's case order. -/
def constructibleTxTypes : List TxType :=
  [TxTypeLegacyTransaction,
   TxTypeValueTransfer, TxTypeFeeDelegatedValueTransfer, TxTypeFeeDelegatedValueTransferWithRatio,
   TxTypeValueTransferMemo, TxTypeFeeDelegatedValueTransferMemo, TxTypeFeeDelegatedValueTransferMemoWithRatio,
   TxTypeAccountUpdate, TxTypeFeeDelegatedAccountUpdate, TxTypeFeeDelegatedAccountUpdateWithRatio,
   TxTypeSmartContractDeploy, TxTypeFeeDelegatedSmartContractDeploy, TxTypeFeeDelegatedSmartContractDeployWithRatio,
   TxTypeSmartContractExecution, TxTypeFeeDelegatedSmartContractExecution, TxTypeFeeDelegatedSmartContractExecutionWithRatio,
   TxTypeCancel, TxTypeFeeDelegatedCancel, TxTypeFeeDelegatedCancelWithRatio,
   TxTypeChainDataAnchoring, TxTypeFeeDelegatedChainDataAnchoring, TxTypeFeeDelegatedChainDataAnchoringWithRatio,
   TxTypeEthereumAccessList, TxTypeEthereumDynamicFee, TxTypeEthereumSetCode]

/-- Modelled from the spec: the protocol gas constant table
(`params/protocol_params.go` is outside the excerpt).  The Intrinsic Gas
Engine and the static per-type table consume these named constants; all
theorems are parametric in them. -/
structure GasParams where
  TxGas : Nat
  TxGasContractCreation : Nat
  TxDataGas : Nat
  TxDataZeroGas : Nat
  TxDataNonZeroGasFrontier : Nat
  TxDataNonZeroGasEIP2028 : Nat
  InitCodeWordGas : Nat
  TxAccessListAddressGas : Nat
  TxAccessListStorageKeyGas : Nat
  CallNewAccountGas : Nat
  TxGasValueTransfer : Nat
  TxGasAccountCreation : Nat
  TxGasAccountUpdate : Nat
  TxGasContractExecution : Nat
  TxGasCancel : Nat
  TxChainDataAnchoringGas : Nat
  TxGasFeeDelegated : Nat
  TxGasFeeDelegatedWithRatio : Nat
deriving DecidableEq, Repr

/-- Modelled from the spec: the fork-gated Protocol Rule Set
(`params.Rules` is outside the excerpt); only the three boolean gates the
Intrinsic Gas Engine consults are embedded. -/
structure Rules where
  IsIstanbul : Bool
  IsShanghai : Bool
  IsPrague : Bool
deriving DecidableEq, Repr

/-- Go: `bytes.Count(data, []byte{0})` — the number of zero bytes. -/
def countZeroBytes (data : List Nat) : Nat :=
  data.countP (fun b => b == 0)

/-- Go: `func toWordSize(size uint64) uint64`.  In the unsaturated branch the
Go addition `size + 31` is a wrapping uint64 addition, embedded as
`% UInt64Mod`; the saturating branch guarantees it never actually wraps. -/
def toWordSize (size : Nat) : Nat :=
  if size > MaxUint64 - 31 then
    MaxUint64 / 32 + 1
  else
    ((size + 31) % UInt64Mod) / 32

/-- One kind of gas error: Go's `ErrGasUintOverflow`. -/
inductive GasError where
  | gasUintOverflow
deriving DecidableEq, Repr

/-- Go: `func IntrinsicGasPayload(gas uint64, data []byte, isContractCreation
bool, rules params.Rules) (uint64, error)`.  Every Go uint64 addition and
multiplication appears with an explicit `% UInt64Mod`; the conversion
`uint64(len(data))` is exact because a Go slice length is below 2^63. -/
def IntrinsicGasPayload (P : GasParams) (gas : Nat) (data : List Nat)
    (isContractCreation : Bool) (rules : Rules) : Except GasError Nat :=
  let length := data.length
  let step1 : Except GasError Nat :=
    if length > 0 then
      let z := countZeroBytes data
      let nz := length - z
      let nonZeroGas := if rules.IsPrague then P.TxDataNonZeroGasEIP2028 else P.TxDataGas
      let zeroGas := if rules.IsPrague then P.TxDataZeroGas else P.TxDataGas
      if (MaxUint64 - gas) / nonZeroGas < nz then
        .error .gasUintOverflow
      else
        let gas1 := (gas + (nz * nonZeroGas) % UInt64Mod) % UInt64Mod
        if (MaxUint64 - gas1) / zeroGas < z then
          .error .gasUintOverflow
        else
          .ok ((gas1 + (z * zeroGas) % UInt64Mod) % UInt64Mod)
    else
      .ok gas
  step1.bind fun gas2 =>
    if isContractCreation && rules.IsShanghai then
      let lenWords := toWordSize length
      if (MaxUint64 - gas2) / P.InitCodeWordGas < lenWords then
        .error .gasUintOverflow
      else
        .ok ((gas2 + (lenWords * P.InitCodeWordGas) % UInt64Mod) % UInt64Mod)
    else
      .ok gas2

/-- Go: `func IntrinsicGasPayloadLegacy(gas uint64, data []byte) (uint64,
error)` — the pre-Istanbul frontier pricing. -/
def IntrinsicGasPayloadLegacy (P : GasParams) (gas : Nat) (data : List Nat) :
    Except GasError Nat :=
  let length := data.length
  if length > 0 then
    let z := countZeroBytes data
    let nz := length - z
    if (MaxUint64 - gas) / P.TxDataNonZeroGasFrontier < nz then
      .error .gasUintOverflow
    else
      let gas1 := (gas + (nz * P.TxDataNonZeroGasFrontier) % UInt64Mod) % UInt64Mod
      if (MaxUint64 - gas1) / P.TxDataZeroGas < z then
        .error .gasUintOverflow
      else
        .ok ((gas1 + (z * P.TxDataZeroGas) % UInt64Mod) % UInt64Mod)
  else
    .ok gas

/-- An access-list entry: an address and its storage keys (`AccessTuple`). -/
structure AccessTuple where
  address : Nat
  storageKeys : List Nat
deriving DecidableEq, Repr

/-- Go: `type AccessList []AccessTuple`. -/
abbrev AccessList := List AccessTuple

/-- Modelled from the spec: `AccessList.StorageKeys()` (defined outside the
excerpt) returns the total storage-key count across entries, the
`count(storageKeys)` of the access-list surcharge. -/
def AccessList.StorageKeys (al : AccessList) : Nat :=
  (al.map (fun a => a.storageKeys.length)).sum

/-- An authorization-list entry (`SetCodeAuthorization`); only its count is
consumed by the Intrinsic Gas Engine. -/
structure SetCodeAuthorization where
  address : Nat
deriving DecidableEq, Repr

/-- Go: `func IntrinsicGas(data []byte, accessList AccessList,
authorizationList []SetCodeAuthorization, contractCreation bool, r
params.Rules) (uint64, error)`.  A nil Go slice is `none`.  The access-list
and authorization-list surcharges are plain `+=`/`*` in the source — wrapping
uint64 arithmetic with no overflow guard — embedded with `% UInt64Mod`. -/
def IntrinsicGas (P : GasParams) (data : List Nat) (accessList : Option AccessList)
    (authorizationList : Option (List SetCodeAuthorization))
    (contractCreation : Bool) (r : Rules) : Except GasError Nat :=
  let gas := if contractCreation then P.TxGasContractCreation else P.TxGas
  let payloadRes :=
    if r.IsIstanbul then IntrinsicGasPayload P gas data contractCreation r
    else IntrinsicGasPayloadLegacy P gas data
  payloadRes.bind fun g0 =>
    let g1 :=
      match accessList with
      | none => g0
      | some al =>
        let a := (g0 + (al.length * P.TxAccessListAddressGas) % UInt64Mod) % UInt64Mod
        (a + (AccessList.StorageKeys al * P.TxAccessListStorageKeyGas) % UInt64Mod) % UInt64Mod
    let g2 :=
      match authorizationList with
      | none => g1
      | some auth => (g1 + (auth.length * P.CallNewAccountGas) % UInt64Mod) % UInt64Mod
    .ok g2

/-- Go: `var txTypeToGasMap = map[TxType]uint64{...}` — the static per-type
base gas table, embedded as a lookup function with the source's entries. -/
def txTypeToGasMap (P : GasParams) (t : TxType) : Option Nat :=
  if t = TxTypeLegacyTransaction then some P.TxGas
  else if t = TxTypeValueTransfer then some P.TxGasValueTransfer
  else if t = TxTypeFeeDelegatedValueTransfer then some (P.TxGasValueTransfer + P.TxGasFeeDelegated)
  else if t = TxTypeFeeDelegatedValueTransferWithRatio then some (P.TxGasValueTransfer + P.TxGasFeeDelegatedWithRatio)
  else if t = TxTypeValueTransferMemo then some P.TxGasValueTransfer
  else if t = TxTypeFeeDelegatedValueTransferMemo then some (P.TxGasValueTransfer + P.TxGasFeeDelegated)
  else if t = TxTypeFeeDelegatedValueTransferMemoWithRatio then some (P.TxGasValueTransfer + P.TxGasFeeDelegatedWithRatio)
  else if t = TxTypeAccountCreation then some P.TxGasAccountCreation
  else if t = TxTypeAccountUpdate then some P.TxGasAccountUpdate
  else if t = TxTypeFeeDelegatedAccountUpdate then some (P.TxGasAccountUpdate + P.TxGasFeeDelegated)
  else if t = TxTypeFeeDelegatedAccountUpdateWithRatio then some (P.TxGasAccountUpdate + P.TxGasFeeDelegatedWithRatio)
  else if t = TxTypeSmartContractDeploy then some P.TxGasContractCreation
  else if t = TxTypeFeeDelegatedSmartContractDeploy then some (P.TxGasContractCreation + P.TxGasFeeDelegated)
  else if t = TxTypeFeeDelegatedSmartContractDeployWithRatio then some (P.TxGasContractCreation + P.TxGasFeeDelegatedWithRatio)
  else if t = TxTypeSmartContractExecution then some P.TxGasContractExecution
  else if t = TxTypeFeeDelegatedSmartContractExecution then some (P.TxGasContractExecution + P.TxGasFeeDelegated)
  else if t = TxTypeFeeDelegatedSmartContractExecutionWithRatio then some (P.TxGasContractExecution + P.TxGasFeeDelegatedWithRatio)
  else if t = TxTypeCancel then some P.TxGasCancel
  else if t = TxTypeFeeDelegatedCancel then some (P.TxGasCancel + P.TxGasFeeDelegated)
  else if t = TxTypeFeeDelegatedCancelWithRatio then some (P.TxGasCancel + P.TxGasFeeDelegatedWithRatio)
  else if t = TxTypeChainDataAnchoring then some P.TxChainDataAnchoringGas
  else if t = TxTypeFeeDelegatedChainDataAnchoring then some (P.TxChainDataAnchoringGas + P.TxGasFeeDelegated)
  else if t = TxTypeFeeDelegatedChainDataAnchoringWithRatio then some (P.TxChainDataAnchoringGas + P.TxGasFeeDelegatedWithRatio)
  else if t = TxTypeEthereumAccessList then some P.TxGas
  else if t = TxTypeEthereumDynamicFee then some P.TxGas
  else if t = TxTypeEthereumSetCode then some P.TxGas
  else none

/-- The 26 tags present in `txTypeToGasMap`, in the source's entry order. -/
def gasMapTxTypes : List TxType :=
  [TxTypeLegacyTransaction,
   TxTypeValueTransfer, TxTypeFeeDelegatedValueTransfer, TxTypeFeeDelegatedValueTransferWithRatio,
   TxTypeValueTransferMemo, TxTypeFeeDelegatedValueTransferMemo, TxTypeFeeDelegatedValueTransferMemoWithRatio,
   TxTypeAccountCreation,
   TxTypeAccountUpdate, TxTypeFeeDelegatedAccountUpdate, TxTypeFeeDelegatedAccountUpdateWithRatio,
   TxTypeSmartContractDeploy, TxTypeFeeDelegatedSmartContractDeploy, TxTypeFeeDelegatedSmartContractDeployWithRatio,
   TxTypeSmartContractExecution, TxTypeFeeDelegatedSmartContractExecution, TxTypeFeeDelegatedSmartContractExecutionWithRatio,
   TxTypeCancel, TxTypeFeeDelegatedCancel, TxTypeFeeDelegatedCancelWithRatio,
   TxTypeChainDataAnchoring, TxTypeFeeDelegatedChainDataAnchoring, TxTypeFeeDelegatedChainDataAnchoringWithRatio,
   TxTypeEthereumAccessList, TxTypeEthereumDynamicFee, TxTypeEthereumSetCode]

/-- Go: `func GetTxGasForTxType(txType TxType) (uint64, error)`. -/
def GetTxGasForTxType (P : GasParams) (txType : TxType) : Except String Nat :=
  match txTypeToGasMap P txType with
  | some gas => .ok gas
  | none => .error ("cannot find txGas for txType " ++ txType.string)

/-- Go: `type FeeRatio uint8`. -/
abbrev FeeRatio := Nat

/-- Go: `func (f FeeRatio) IsValid() bool { return 1 <= f && f <= 99 }`. -/
def FeeRatio.IsValid (f : FeeRatio) : Bool :=
  1 ≤ f && f ≤ 99

/-- Go: `func CalcFeeWithRatio(feeRatio FeeRatio, fee *big.Int) (*big.Int,
*big.Int)`.  `big.Int.Div` is Euclidean division, embedded as `Int.ediv`;
`common.Big100` is the literal 100. -/
def CalcFeeWithRatio (feeRatio : FeeRatio) (fee : Int) : Int × Int :=
  let feePayer := fee * (feeRatio : Int) / 100
  let feeSender := fee - feePayer
  (feePayer, feeSender)

/-- Modelled from the spec: the account-state shapes the Delegation Validator
queries (`blockchain/types/account` is outside the excerpt).  Per the spec an
account is either a plain externally-owned account carrying a code hash or a
smart-contract account; `Account.sca` answers `SmartContractAccountType` to
the `Type()` query and fails the `*ExternallyOwnedAccount` cast. -/
inductive Account where
  | eoa (codeHash : List Nat)
  | sca
deriving DecidableEq, Repr

/-- Modelled from the spec: `emptyCodeHash = crypto.Keccak256(nil)` (the
crypto package is outside the excerpt) — the 32-byte Keccak-256 hash of the
empty byte string. -/
def emptyCodeHash : List Nat :=
  [0xc5, 0xd2, 0x46, 0x01, 0x86, 0xf7, 0x23, 0x3c,
   0x92, 0x7e, 0x7d, 0xb2, 0xdc, 0xc7, 0x03, 0xc0,
   0xe5, 0x00, 0xb6, 0x53, 0xca, 0x82, 0x27, 0x3b,
   0x7b, 0xfa, 0xd8, 0x04, 0x5d, 0x85, 0xa4, 0x70]

/-- The three `kerrors` the delegation validator returns. -/
inductive KError where
  | toMustBeEOAWithoutCode
  | fromMustBeEOAWithoutCode
  | toMustBeEOAWithCodeOrSCA
deriving DecidableEq, Repr

/-- Go: `func validate7702(stateDB StateDB, txType TxType, from, to
common.Address) error`.  The read-only state snapshot is the `GetAccount`
query; addresses are opaque (`Nat`).  The function is pure: it only reads the
snapshot. -/
def validate7702 (getAccount : Nat → Option Account) (txType : TxType)
    (fromAddr toAddr : Nat) : Except KError Unit :=
  -- Group 1: Recipient must be EOA without code
  if txType = TxTypeValueTransfer ∨ txType = TxTypeFeeDelegatedValueTransfer ∨
     txType = TxTypeFeeDelegatedValueTransferWithRatio ∨
     txType = TxTypeValueTransferMemo ∨ txType = TxTypeFeeDelegatedValueTransferMemo ∨
     txType = TxTypeFeeDelegatedValueTransferMemoWithRatio then
    match getAccount toAddr with
    | none => .ok ()
    | some .sca => .error .toMustBeEOAWithoutCode
    | some (.eoa ch) =>
      if ch = emptyCodeHash then .ok () else .error .toMustBeEOAWithoutCode
  -- Group 2: From must be EOA without code
  else if txType = TxTypeAccountUpdate ∨ txType = TxTypeFeeDelegatedAccountUpdate ∨
     txType = TxTypeFeeDelegatedAccountUpdateWithRatio then
    match getAccount fromAddr with
    | none => .ok ()
    | some .sca => .error .fromMustBeEOAWithoutCode
    | some (.eoa ch) =>
      if ch = emptyCodeHash then .ok () else .error .fromMustBeEOAWithoutCode
  -- Group 3: Recipient must be EOA with code or SCA
  else if txType = TxTypeSmartContractExecution ∨
     txType = TxTypeFeeDelegatedSmartContractExecution ∨
     txType = TxTypeFeeDelegatedSmartContractExecutionWithRatio then
    match getAccount toAddr with
    | none => .error .toMustBeEOAWithCodeOrSCA
    | some .sca => .ok ()
    | some (.eoa ch) =>
      if ch = emptyCodeHash then .error .toMustBeEOAWithCodeOrSCA else .ok ()
  else
    .ok ()

/-- Modelled from the spec: the documented Kaia gas schedule used to
instantiate the parametric theorems on concrete inputs (flat payload price
100, EIP-2028 prices 16 and 4, frontier non-zero price 68, base call 21000,
contract creation 53000, init-code word 2, access list 2400 and 1900,
empty-account 25000, delegation surcharges 10000 and 15000). -/
def kaiaParams : GasParams where
  TxGas := 21000
  TxGasContractCreation := 53000
  TxDataGas := 100
  TxDataZeroGas := 4
  TxDataNonZeroGasFrontier := 68
  TxDataNonZeroGasEIP2028 := 16
  InitCodeWordGas := 2
  TxAccessListAddressGas := 2400
  TxAccessListStorageKeyGas := 1900
  CallNewAccountGas := 25000
  TxGasValueTransfer := 21000
  TxGasAccountCreation := 21000
  TxGasAccountUpdate := 21000
  TxGasContractExecution := 21000
  TxGasCancel := 21000
  TxChainDataAnchoringGas := 21000
  TxGasFeeDelegated := 10000
  TxGasFeeDelegatedWithRatio := 15000

/-- Exact (unbounded) mathematical value of the Istanbul-path payload cost:
input gas plus the zero/non-zero byte cost plus the Shanghai init-code word
cost.  `IntrinsicGasPayload` either returns exactly this value or fails with
`GasOverflow`. -/
def payloadCostExact (P : GasParams) (gas : Nat) (data : List Nat)
    (isContractCreation : Bool) (rules : Rules) : Nat :=
  gas
    + (data.length - countZeroBytes data)
        * (if rules.IsPrague then P.TxDataNonZeroGasEIP2028 else P.TxDataGas)
    + countZeroBytes data * (if rules.IsPrague then P.TxDataZeroGas else P.TxDataGas)
    + (if isContractCreation && rules.IsShanghai then
         toWordSize data.length * P.InitCodeWordGas
       else 0)

/-- Exact (unbounded) mathematical value of the legacy-path payload cost. -/
def payloadCostLegacyExact (P : GasParams) (gas : Nat) (data : List Nat) : Nat :=
  gas + (data.length - countZeroBytes data) * P.TxDataNonZeroGasFrontier
    + countZeroBytes data * P.TxDataZeroGas

/-- Exact (unbounded) mathematical value of the access-list and
authorization-list surcharges of `IntrinsicGas`. -/
def listCostExact (P : GasParams) (accessList : Option AccessList)
    (authorizationList : Option (List SetCodeAuthorization)) : Nat :=
  (match accessList with
   | none => 0
   | some al => al.length * P.TxAccessListAddressGas
       + AccessList.StorageKeys al * P.TxAccessListStorageKeyGas)
    + (match authorizationList with
       | none => 0
       | some auth => auth.length * P.CallNewAccountGas)

/-- Exact (unbounded) mathematical value of the full intrinsic gas. -/
def intrinsicGasExact (P : GasParams) (data : List Nat)
    (accessList : Option AccessList)
    (authorizationList : Option (List SetCodeAuthorization))
    (contractCreation : Bool) (r : Rules) : Nat :=
  (if r.IsIstanbul then
     payloadCostExact P (if contractCreation then P.TxGasContractCreation else P.TxGas)
       data contractCreation r
   else
     payloadCostLegacyExact P (if contractCreation then P.TxGasContractCreation else P.TxGas)
       data)
    + listCostExact P accessList authorizationList

/-- Positivity and range facts about the gas schedule that the real constant
table satisfies; they rule out Go division-by-zero panics in the overflow
guards and oversized base costs. -/
def GasParams.WellFormed (P : GasParams) : Prop :=
  0 < P.TxDataGas ∧ 0 < P.TxDataZeroGas ∧ 0 < P.TxDataNonZeroGasFrontier ∧
  0 < P.TxDataNonZeroGasEIP2028 ∧ 0 < P.InitCodeWordGas ∧
  P.TxGas ≤ MaxUint64 ∧ P.TxGasContractCreation ≤ MaxUint64

instance (P : GasParams) : Decidable P.WellFormed := by
  unfold GasParams.WellFormed
  infer_instance

/-- Equality of fallible results is decidable. -/
instance {ε α : Type} [DecidableEq ε] [DecidableEq α] : DecidableEq (Except ε α) := fun a b =>
  match a, b with
  | .ok x, .ok y => if h : x = y then .isTrue (by rw [h]) else .isFalse (by simp [h])
  | .error e, .error f => if h : e = f then .isTrue (by rw [h]) else .isFalse (by simp [h])
  | .ok _, .error _ => .isFalse (by simp)
  | .error _, .ok _ => .isFalse (by simp)

/-- The (base, fee-delegated, fee-delegated-with-ratio) tag triples of the
static gas table, one per delegatable family. -/
def feeDelegationTriples : List (TxType × TxType × TxType) :=
  [(TxTypeValueTransfer, TxTypeFeeDelegatedValueTransfer, TxTypeFeeDelegatedValueTransferWithRatio),
   (TxTypeValueTransferMemo, TxTypeFeeDelegatedValueTransferMemo, TxTypeFeeDelegatedValueTransferMemoWithRatio),
   (TxTypeAccountUpdate, TxTypeFeeDelegatedAccountUpdate, TxTypeFeeDelegatedAccountUpdateWithRatio),
   (TxTypeSmartContractDeploy, TxTypeFeeDelegatedSmartContractDeploy, TxTypeFeeDelegatedSmartContractDeployWithRatio),
   (TxTypeSmartContractExecution, TxTypeFeeDelegatedSmartContractExecution, TxTypeFeeDelegatedSmartContractExecutionWithRatio),
   (TxTypeCancel, TxTypeFeeDelegatedCancel, TxTypeFeeDelegatedCancelWithRatio),
   (TxTypeChainDataAnchoring, TxTypeFeeDelegatedChainDataAnchoring, TxTypeFeeDelegatedChainDataAnchoringWithRatio)]

/-- Bind on a success propagates into the continuation. -/
theorem except_bind_ok {α β ε : Type} (a : α) (f : α → Except ε β) :
    (Except.ok a : Except ε α).bind f = f a := rfl

/-- Bind on an error short-circuits, Go's early return. -/
theorem except_bind_err {α β ε : Type} (e : ε) (f : α → Except ε β) :
    (Except.error e : Except ε α).bind f = .error e := rfl

/-- The source's division-based overflow guard trips exactly when the exact
sum would exceed MaxUint64. -/
theorem guard_iff (g n c : Nat) (hc : 0 < c) (hg : g ≤ MaxUint64) :
    ((MaxUint64 - g) / c < n) ↔ MaxUint64 < g + n * c := by
  rw [Nat.div_lt_iff_lt_mul hc]; omega

/-- The wrap modulus is one above MaxUint64. -/
theorem uint64Mod_eq : UInt64Mod = MaxUint64 + 1 := by decide

/-- Characterization of IntrinsicGasPayload: for positive byte prices and an
in-range starting gas it returns exactly the unbounded mathematical payload
cost when that fits in uint64 and the GasOverflow error otherwise — the
wrapping additions inside never actually wrap. -/
theorem IntrinsicGasPayload_eq (P : GasParams) (gas : Nat) (data : List Nat)
    (cc : Bool) (rules : Rules)
    (hgas : gas ≤ MaxUint64)
    (h1 : 0 < (if rules.IsPrague then P.TxDataNonZeroGasEIP2028 else P.TxDataGas))
    (h2 : 0 < (if rules.IsPrague then P.TxDataZeroGas else P.TxDataGas))
    (h3 : 0 < P.InitCodeWordGas) :
    IntrinsicGasPayload P gas data cc rules =
      if payloadCostExact P gas data cc rules ≤ MaxUint64 then
        .ok (payloadCostExact P gas data cc rules)
      else .error .gasUintOverflow := by
  have hz0 : countZeroBytes data ≤ data.length := List.countP_le_length _
  have hWM : UInt64Mod = MaxUint64 + 1 := uint64Mod_eq
  simp only [IntrinsicGasPayload, payloadCostExact]
  set c1 := (if rules.IsPrague then P.TxDataNonZeroGasEIP2028 else P.TxDataGas) with hc1
  set c2 := (if rules.IsPrague then P.TxDataZeroGas else P.TxDataGas) with hc2
  set z := countZeroBytes data with hzdef
  set nz := data.length - z with hnzdef
  set w := (if cc && rules.IsShanghai then toWordSize data.length * P.InitCodeWordGas else 0) with hwdef
  have hw_alt : ∀ g2 : Nat, g2 ≤ MaxUint64 →
      (if (cc && rules.IsShanghai) = true then
        (if (MaxUint64 - g2) / P.InitCodeWordGas < toWordSize data.length then
          (Except.error GasError.gasUintOverflow : Except GasError Nat)
        else .ok ((g2 + (toWordSize data.length * P.InitCodeWordGas) % UInt64Mod) % UInt64Mod))
       else .ok g2) =
      (if g2 + w ≤ MaxUint64 then Except.ok (g2 + w) else .error .gasUintOverflow) := by
    intro g2 hg2
    by_cases hcc : (cc && rules.IsShanghai) = true
    · rw [if_pos hcc, hwdef, if_pos hcc]
      by_cases hov : (MaxUint64 - g2) / P.InitCodeWordGas < toWordSize data.length
      · rw [if_pos hov]
        rw [guard_iff _ _ _ h3 hg2] at hov
        rw [if_neg (by omega)]
      · rw [if_neg hov]
        rw [guard_iff _ _ _ h3 hg2] at hov
        push_neg at hov
        rw [if_pos (by omega)]
        rw [Nat.mod_eq_of_lt (a := toWordSize data.length * P.InitCodeWordGas) (by omega),
            Nat.mod_eq_of_lt (by omega)]
    · rw [if_neg hcc, hwdef, if_neg hcc]
      rw [if_pos (by omega)]
      simp
  by_cases hlen : data.length > 0
  · rw [if_pos hlen]
    by_cases hg1 : (MaxUint64 - gas) / c1 < nz
    · rw [if_pos hg1, except_bind_err]
      rw [guard_iff _ _ _ h1 hgas] at hg1
      rw [if_neg (by omega)]
    · rw [if_neg hg1]
      rw [guard_iff _ _ _ h1 hgas] at hg1
      push_neg at hg1
      have hm2 : (gas + nz * c1 % UInt64Mod) % UInt64Mod = gas + nz * c1 := by
        rw [Nat.mod_eq_of_lt (a := nz * c1) (by omega)]
        exact Nat.mod_eq_of_lt (by omega)
      rw [hm2]
      by_cases hg2 : (MaxUint64 - (gas + nz * c1)) / c2 < z
      · rw [if_pos hg2, except_bind_err]
        rw [guard_iff _ _ _ h2 (by omega)] at hg2
        rw [if_neg (by omega)]
      · rw [if_neg hg2]
        rw [guard_iff _ _ _ h2 (by omega)] at hg2
        push_neg at hg2
        have hm4 : (gas + nz * c1 + z * c2 % UInt64Mod) % UInt64Mod = gas + nz * c1 + z * c2 := by
          rw [Nat.mod_eq_of_lt (a := z * c2) (by omega)]
          exact Nat.mod_eq_of_lt (by omega)
        rw [hm4, except_bind_ok]
        rw [hw_alt _ (by omega)]
  · rw [if_neg hlen, except_bind_ok]
    have hlen0 : data.length = 0 := by omega
    have hzz : z = 0 := by omega
    have hw0 : w = 0 := by
      rw [hwdef, hlen0]
      have h : toWordSize 0 = 0 := by decide
      simp [h]
    rw [hw_alt gas hgas]
    have heq : gas + nz * c1 + z * c2 + w = gas + w := by
      have hnzz : nz = 0 := by omega
      rw [hzz, hnzz]
      ring
    rw [heq]

/-- Characterization of the legacy (pre-Istanbul) payload costing, analogous
to the Istanbul-path characterization. -/
theorem IntrinsicGasPayloadLegacy_eq (P : GasParams) (gas : Nat) (data : List Nat)
    (hgas : gas ≤ MaxUint64)
    (h1 : 0 < P.TxDataNonZeroGasFrontier)
    (h2 : 0 < P.TxDataZeroGas) :
    IntrinsicGasPayloadLegacy P gas data =
      if payloadCostLegacyExact P gas data ≤ MaxUint64 then
        .ok (payloadCostLegacyExact P gas data)
      else .error .gasUintOverflow := by
  have hz0 : countZeroBytes data ≤ data.length := List.countP_le_length _
  have hWM : UInt64Mod = MaxUint64 + 1 := uint64Mod_eq
  simp only [IntrinsicGasPayloadLegacy, payloadCostLegacyExact]
  set z := countZeroBytes data with hzdef
  set nz := data.length - z with hnzdef
  by_cases hlen : data.length > 0
  · rw [if_pos hlen]
    by_cases hg1 : (MaxUint64 - gas) / P.TxDataNonZeroGasFrontier < nz
    · rw [if_pos hg1]
      rw [guard_iff _ _ _ h1 hgas] at hg1
      rw [if_neg (by omega)]
    · rw [if_neg hg1]
      rw [guard_iff _ _ _ h1 hgas] at hg1
      push_neg at hg1
      have hm2 : (gas + nz * P.TxDataNonZeroGasFrontier % UInt64Mod) % UInt64Mod
          = gas + nz * P.TxDataNonZeroGasFrontier := by
        rw [Nat.mod_eq_of_lt (a := nz * P.TxDataNonZeroGasFrontier) (by omega)]
        exact Nat.mod_eq_of_lt (by omega)
      rw [hm2]
      by_cases hg2 : (MaxUint64 - (gas + nz * P.TxDataNonZeroGasFrontier)) / P.TxDataZeroGas < z
      · rw [if_pos hg2]
        rw [guard_iff _ _ _ h2 (by omega)] at hg2
        rw [if_neg (by omega)]
      · rw [if_neg hg2]
        rw [guard_iff _ _ _ h2 (by omega)] at hg2
        push_neg at hg2
        have hm4 : (gas + nz * P.TxDataNonZeroGasFrontier + z * P.TxDataZeroGas % UInt64Mod) % UInt64Mod
            = gas + nz * P.TxDataNonZeroGasFrontier + z * P.TxDataZeroGas := by
          rw [Nat.mod_eq_of_lt (a := z * P.TxDataZeroGas) (by omega)]
          exact Nat.mod_eq_of_lt (by omega)
        rw [hm4, if_pos (by omega)]
  · rw [if_neg hlen]
    have hzz : z = 0 := by omega
    have hnzz : nz = 0 := by omega
    rw [hzz, hnzz, if_pos (by omega)]
    simp

/-- toWordSize is monotone. -/
theorem toWordSize_mono {m n : Nat} (h : m ≤ n) : toWordSize m ≤ toWordSize n := by
  unfold toWordSize MaxUint64 UInt64Mod
  split_ifs <;> omega

/-- Appending bytes never decreases the exact payload cost. -/
theorem payloadCostExact_mono (P : GasParams) (gas : Nat) (cc : Bool) (rules : Rules)
    (d e : List Nat) :
    payloadCostExact P gas d cc rules ≤ payloadCostExact P gas (d ++ e) cc rules := by
  have hzd : d.countP (fun b => b == 0) ≤ d.length := List.countP_le_length _
  have hze : e.countP (fun b => b == 0) ≤ e.length := List.countP_le_length _
  have hw : toWordSize d.length * P.InitCodeWordGas
      ≤ toWordSize (d.length + e.length) * P.InitCodeWordGas :=
    Nat.mul_le_mul_right _ (toWordSize_mono (by omega))
  simp only [payloadCostExact, countZeroBytes, List.countP_append, List.length_append]
  have hnz : d.length + e.length - (d.countP (fun b => b == 0) + e.countP (fun b => b == 0))
      = (d.length - d.countP (fun b => b == 0)) + (e.length - e.countP (fun b => b == 0)) := by
    omega
  rw [hnz, Nat.add_mul, Nat.add_mul]
  split_ifs <;> omega

/-- Appending bytes never decreases the exact legacy payload cost. -/
theorem payloadCostLegacyExact_mono (P : GasParams) (gas : Nat) (d e : List Nat) :
    payloadCostLegacyExact P gas d ≤ payloadCostLegacyExact P gas (d ++ e) := by
  have hzd : d.countP (fun b => b == 0) ≤ d.length := List.countP_le_length _
  have hze : e.countP (fun b => b == 0) ≤ e.length := List.countP_le_length _
  simp only [payloadCostLegacyExact, countZeroBytes, List.countP_append, List.length_append]
  have hnz : d.length + e.length - (d.countP (fun b => b == 0) + e.countP (fun b => b == 0))
      = (d.length - d.countP (fun b => b == 0)) + (e.length - e.countP (fun b => b == 0)) := by
    omega
  rw [hnz, Nat.add_mul, Nat.add_mul]
  omega

/-- Appending bytes never decreases the exact intrinsic gas. -/
theorem intrinsicGasExact_mono (P : GasParams) (al : Option AccessList)
    (auth : Option (List SetCodeAuthorization)) (cc : Bool) (r : Rules) (d e : List Nat) :
    intrinsicGasExact P d al auth cc r ≤ intrinsicGasExact P (d ++ e) al auth cc r := by
  unfold intrinsicGasExact
  have h1 := payloadCostExact_mono P (if cc then P.TxGasContractCreation else P.TxGas) cc r d e
  have h2 := payloadCostLegacyExact_mono P (if cc then P.TxGasContractCreation else P.TxGas) d e
  by_cases hist : r.IsIstanbul = true
  · simp only [if_pos hist]
    omega
  · simp only [if_neg hist]
    omega

/-- When the exact intrinsic gas fits in uint64, IntrinsicGas succeeds and
returns exactly it: none of the wrapping operations wraps. -/
theorem IntrinsicGas_ok_of_exact_le (P : GasParams) (data : List Nat)
    (al : Option AccessList) (auth : Option (List SetCodeAuthorization))
    (cc : Bool) (r : Rules) (hwf : P.WellFormed)
    (hle : intrinsicGasExact P data al auth cc r ≤ MaxUint64) :
    IntrinsicGas P data al auth cc r = .ok (intrinsicGasExact P data al auth cc r) := by
  obtain ⟨p1, p2, p3, p4, p5, p6, p7⟩ := hwf
  have hWM : UInt64Mod = MaxUint64 + 1 := uint64Mod_eq
  have hbase : (if cc then P.TxGasContractCreation else P.TxGas) ≤ MaxUint64 := by
    split_ifs <;> assumption
  unfold intrinsicGasExact at hle ⊢
  simp only [IntrinsicGas]
  by_cases hist : r.IsIstanbul = true
  · rw [if_pos hist, if_pos hist] at *
    have hpe : payloadCostExact P (if cc then P.TxGasContractCreation else P.TxGas) data cc r
        ≤ MaxUint64 := by omega
    rw [IntrinsicGasPayload_eq P _ data cc r hbase (by split_ifs <;> assumption)
        (by split_ifs <;> assumption) p5]
    rw [if_pos hpe, except_bind_ok]
    set g0 := payloadCostExact P (if cc then P.TxGasContractCreation else P.TxGas) data cc r with hg0
    rcases al with _ | al <;> rcases auth with _ | auth <;>
      simp only [listCostExact] at hle ⊢
    · rfl
    · congr 1
      rw [Nat.mod_eq_of_lt (a := auth.length * P.CallNewAccountGas) (by omega)]
      rw [Nat.mod_eq_of_lt (by omega)]
      omega
    · congr 1
      rw [Nat.mod_eq_of_lt (a := al.length * P.TxAccessListAddressGas) (by omega),
          Nat.mod_eq_of_lt (a := g0 + al.length * P.TxAccessListAddressGas) (by omega),
          Nat.mod_eq_of_lt (a := AccessList.StorageKeys al * P.TxAccessListStorageKeyGas) (by omega),
          Nat.mod_eq_of_lt (by omega)]
      omega
    · congr 1
      rw [Nat.mod_eq_of_lt (a := al.length * P.TxAccessListAddressGas) (by omega),
          Nat.mod_eq_of_lt (a := g0 + al.length * P.TxAccessListAddressGas) (by omega),
          Nat.mod_eq_of_lt (a := AccessList.StorageKeys al * P.TxAccessListStorageKeyGas) (by omega),
          Nat.mod_eq_of_lt (a := g0 + al.length * P.TxAccessListAddressGas + AccessList.StorageKeys al * P.TxAccessListStorageKeyGas) (by omega),
          Nat.mod_eq_of_lt (a := auth.length * P.CallNewAccountGas) (by omega),
          Nat.mod_eq_of_lt (by omega)]
      omega
  · rw [if_neg hist, if_neg hist] at *
    have hpe : payloadCostLegacyExact P (if cc then P.TxGasContractCreation else P.TxGas) data
        ≤ MaxUint64 := by omega
    rw [IntrinsicGasPayloadLegacy_eq P _ data hbase p3 p2]
    rw [if_pos hpe, except_bind_ok]
    set g0 := payloadCostLegacyExact P (if cc then P.TxGasContractCreation else P.TxGas) data with hg0
    rcases al with _ | al <;> rcases auth with _ | auth <;>
      simp only [listCostExact] at hle ⊢
    · rfl
    · congr 1
      rw [Nat.mod_eq_of_lt (a := auth.length * P.CallNewAccountGas) (by omega)]
      rw [Nat.mod_eq_of_lt (by omega)]
      omega
    · congr 1
      rw [Nat.mod_eq_of_lt (a := al.length * P.TxAccessListAddressGas) (by omega),
          Nat.mod_eq_of_lt (a := g0 + al.length * P.TxAccessListAddressGas) (by omega),
          Nat.mod_eq_of_lt (a := AccessList.StorageKeys al * P.TxAccessListStorageKeyGas) (by omega),
          Nat.mod_eq_of_lt (by omega)]
      omega
    · congr 1
      rw [Nat.mod_eq_of_lt (a := al.length * P.TxAccessListAddressGas) (by omega),
          Nat.mod_eq_of_lt (a := g0 + al.length * P.TxAccessListAddressGas) (by omega),
          Nat.mod_eq_of_lt (a := AccessList.StorageKeys al * P.TxAccessListStorageKeyGas) (by omega),
          Nat.mod_eq_of_lt (a := g0 + al.length * P.TxAccessListAddressGas + AccessList.StorageKeys al * P.TxAccessListStorageKeyGas) (by omega),
          Nat.mod_eq_of_lt (a := auth.length * P.CallNewAccountGas) (by omega),
          Nat.mod_eq_of_lt (by omega)]
      omega



/-- Unfolding lemma for the payer share. -/
theorem calcFee_fst (r : FeeRatio) (fee : Int) :
    (CalcFeeWithRatio r fee).1 = fee * (r : Int) / 100 := rfl

/-- Unfolding lemma for the sender share. -/
theorem calcFee_snd (r : FeeRatio) (fee : Int) :
    (CalcFeeWithRatio r fee).2 = fee - fee * (r : Int) / 100 := rfl

/-- C1: for every FeeRatio in [1,99] and non-negative fee, CalcFeeWithRatio
returns payerShare = floor(fee * ratio / 100) — equal to truncation toward
zero on these operands — and senderShare = fee - payerShare, so the two
shares sum exactly to the fee and the sender share is non-negative. -/
theorem C1_calcFeeWithRatio_split (r : Nat) (fee : Int)
    (h1 : 1 ≤ r) (h2 : r ≤ 99) (hf : 0 ≤ fee) :
    (CalcFeeWithRatio r fee).1 = Int.fdiv (fee * (r : Int)) 100 ∧
    (CalcFeeWithRatio r fee).1 = Int.tdiv (fee * (r : Int)) 100 ∧
    (CalcFeeWithRatio r fee).1 + (CalcFeeWithRatio r fee).2 = fee ∧
    0 ≤ (CalcFeeWithRatio r fee).2 := by
  have hnn : 0 ≤ fee * (r : Int) := mul_nonneg hf (by positivity)
  rw [calcFee_fst, calcFee_snd, Int.fdiv_eq_ediv _ (by norm_num),
    Int.tdiv_eq_ediv hnn (by norm_num)]
  refine ⟨rfl, rfl, by ring, ?_⟩
  have h100 : (r : Int) ≤ 100 := by omega
  have hle : fee * (r : Int) ≤ fee * 100 := mul_le_mul_of_nonneg_left h100 hf
  omega

/-- C1 witness at ratio 30 and fee 100. -/
theorem C1_witness :
    (1:Nat) ≤ 30 ∧ (30:Nat) ≤ 99 ∧ (0:Int) ≤ 100 ∧
    (CalcFeeWithRatio 30 100).1 = Int.fdiv (100 * (30 : Int)) 100 ∧
    (CalcFeeWithRatio 30 100).1 + (CalcFeeWithRatio 30 100).2 = 100 := by
  have h := C1_calcFeeWithRatio_split 30 100 (by decide) (by decide) (by decide)
  exact ⟨by decide, by decide, by decide, h.1, h.2.2.1⟩

/-- C10 counterexample: at ratio 101 (above 100) and fee 1 the code computes
payer share 1 — not strictly above the fee — and sender share 0 — not
negative — refuting the claim's clause about ratios above 100. -/
theorem C10_counterexample :
    CalcFeeWithRatio 101 1 = (1, 0) ∧
    ¬((1 : Int) < (CalcFeeWithRatio 101 1).1 ∧ (CalcFeeWithRatio 101 1).2 < 0) := by
  decide

/-- C10 amended: CalcFeeWithRatio performs no range check and is total on the
whole uint8 ratio range: ratio 0 gives (0, fee), ratio 100 gives (fee, 0),
the shares always sum to the fee, and for ratios above 100 the payer share is
at least the fee and the sender share at most 0 — strictly so whenever
fee * (ratio - 100) ≥ 100. -/
theorem C10_calcFeeWithRatio_totality (r : Nat) (fee : Int)
    (hr : r ≤ 255) (hf : 0 ≤ fee) :
    (r = 0 → CalcFeeWithRatio r fee = (0, fee)) ∧
    (r = 100 → CalcFeeWithRatio r fee = (fee, 0)) ∧
    (CalcFeeWithRatio r fee).1 + (CalcFeeWithRatio r fee).2 = fee ∧
    (100 < r → fee ≤ (CalcFeeWithRatio r fee).1 ∧ (CalcFeeWithRatio r fee).2 ≤ 0) ∧
    (100 < r → 100 ≤ fee * ((r : Int) - 100) →
      fee < (CalcFeeWithRatio r fee).1 ∧ (CalcFeeWithRatio r fee).2 < 0) := by
  have hc100 : fee * (100 : Int) / 100 = fee := Int.mul_ediv_cancel _ (by norm_num)
  refine ⟨?_, ?_, by rw [calcFee_fst, calcFee_snd]; ring, ?_, ?_⟩
  · rintro rfl
    simp [CalcFeeWithRatio]
  · rintro rfl
    simp only [CalcFeeWithRatio, Nat.cast_ofNat, hc100]
    rw [sub_self]
  · intro hgt
    rw [calcFee_fst, calcFee_snd]
    have h100 : (100 : Int) ≤ (r : Int) := by omega
    have hle : fee * 100 ≤ fee * (r : Int) := mul_le_mul_of_nonneg_left h100 hf
    have hnn : 0 ≤ fee * (r : Int) := mul_nonneg hf (by positivity)
    omega
  · intro hgt hbig
    rw [calcFee_fst, calcFee_snd]
    have hexp : fee * ((r : Int) - 100) = fee * (r : Int) - fee * 100 := by ring
    omega

/-- C10 witness at ratios 0, 100 and 255 with fee 7. -/
theorem C10_witness :
    (0:Nat) ≤ 255 ∧ (0:Int) ≤ 7 ∧ CalcFeeWithRatio 0 7 = (0, 7) ∧
    CalcFeeWithRatio 100 7 = (7, 0) ∧
    (CalcFeeWithRatio 255 7).1 + (CalcFeeWithRatio 255 7).2 = 7 := by
  refine ⟨by decide, by decide,
    (C10_calcFeeWithRatio_totality 0 7 (by decide) (by decide)).1 rfl,
    (C10_calcFeeWithRatio_totality 100 7 (by decide) (by decide)).2.1 rfl,
    (C10_calcFeeWithRatio_totality 255 7 (by decide) (by decide)).2.2.1⟩

/-- C6: toWordSize is saturating ceiling division by 32: 0, 32, 33 map to 0,
1, 2; below the saturation threshold it is exactly ceil(n/32); within 31 of
maxUint64 it returns the saturated maximum MaxUint64/32 + 1 — which still
equals ceil(n/32) for every representable n, with no uint64 overflow. -/
theorem C6_toWordSize_ceil (n : Nat) (hn : n ≤ MaxUint64) :
    toWordSize 0 = 0 ∧ toWordSize 32 = 1 ∧ toWordSize 33 = 2 ∧
    (n ≤ MaxUint64 - 31 → toWordSize n = (n + 31) / 32) ∧
    (MaxUint64 - 31 < n → toWordSize n = MaxUint64 / 32 + 1) ∧
    toWordSize n = (n + 31) / 32 := by
  refine ⟨by decide, by decide, by decide, ?_, ?_, ?_⟩ <;>
    unfold toWordSize MaxUint64 UInt64Mod at * <;> intros <;> split_ifs <;> omega

/-- C6 witness at maxUint64 itself. -/
theorem C6_witness :
    MaxUint64 ≤ MaxUint64 ∧ toWordSize MaxUint64 = MaxUint64 / 32 + 1 ∧
    toWordSize MaxUint64 = (MaxUint64 + 31) / 32 := by
  have h := C6_toWordSize_ceil MaxUint64 (le_refl _)
  exact ⟨le_refl _, h.2.2.2.2.1 (by decide), h.2.2.2.2.2⟩


/-- Masking with 3 extracts the low two bits. -/
theorem and_three_eq_mod_four (x : Nat) : x &&& 3 = x % 4 := by
  have e1 : (3:Nat) = 2^2 - 1 := by norm_num
  have h := Nat.and_pow_two_sub_one_eq_mod x 2
  rw [e1]
  simpa using h

/-- C5 amended: for every 16-bit tag, IsFeeDelegatedTransaction is true iff
at least one of the two delegation bits is set and the tag is outside the
Ethereum-typed numeric space (high byte 0x78); for every Ethereum-typed tag
it is false regardless of the low-bit pattern. -/
theorem C5_feeDelegated_iff : ∀ t : Nat, t < 65536 →
    ((TxType.IsFeeDelegatedTransaction t = true) ↔
      ((t &&& 1 ≠ 0 ∨ t &&& 2 ≠ 0) ∧ t &&& 0xff00 ≠ 0x7800)) ∧
    (t &&& 0xff00 = 0x7800 → TxType.IsFeeDelegatedTransaction t = false) := by
  intro t ht
  have h3 : (t % 256) &&& 3 = t % 4 := by
    rw [and_three_eq_mod_four, Nat.mod_mod_of_dvd _ (by norm_num)]
  have hb1 : t &&& 1 = t % 2 := Nat.and_one_is_mod t
  have hb2 : t &&& 2 = (t % 4) &&& 2 := by
    have h : t &&& 2 = (t &&& 3) &&& 2 := by
      rw [Nat.and_assoc, show (3:Nat) &&& 2 = 2 by decide]
    rw [h, and_three_eq_mod_four]
  constructor
  · by_cases hE : t &&& 65280 = 30720
    · simp [TxType.IsFeeDelegatedTransaction, TxType.IsEthereumTransaction,
        TxType.IsEthTypedTransaction, EthereumTxTypeEnvelope, hE]
    · by_cases h0 : t = 0
      · subst h0
        decide
      · simp only [TxType.IsFeeDelegatedTransaction, TxType.IsEthereumTransaction,
          TxType.IsLegacyTransaction, TxType.IsEthTypedTransaction, TxTypeLegacyTransaction,
          TxFeeDelegationBitMask, TxFeeDelegationWithRatioBitMask, EthereumTxTypeEnvelope,
          show (1:Nat) ||| 2 = 3 from by decide, show (120:Nat) <<< 8 = 30720 from by decide,
          h3, hb1, hb2, Bool.and_eq_true, bne_iff_ne, ne_eq, Bool.not_eq_true',
          Bool.or_eq_false_iff, beq_eq_false_iff_ne]
        simp only [hE, h0, not_false_iff, and_true, true_and, iff_true, not_false_eq_true]
        obtain ⟨m, hm, hmlt⟩ : ∃ m, t % 4 = m ∧ m < 4 := ⟨t % 4, rfl, Nat.mod_lt _ (by norm_num)⟩
        rw [hm]
        interval_cases m <;>
          simp [show (0:Nat) &&& 2 = 0 from by decide, show (1:Nat) &&& 2 = 0 from by decide,
            show (2:Nat) &&& 2 = 2 from by decide, show (3:Nat) &&& 2 = 2 from by decide] <;>
          omega
  · intro hE
    simp [TxType.IsFeeDelegatedTransaction, TxType.IsEthereumTransaction,
      TxType.IsEthTypedTransaction, EthereumTxTypeEnvelope, hE]

/-- C5 counterexample: tag 0x000B has both delegation bits set — not exactly
one — and lies outside the Ethereum-typed space, yet the code classifies it
as fee-delegated, so the claimed equivalence fails at t = 11. -/
theorem C5_counterexample :
    ¬(TxType.IsFeeDelegatedTransaction 11 = true ↔
      ((((11:Nat) &&& 1 ≠ 0 ∧ (11:Nat) &&& 2 = 0) ∨ ((11:Nat) &&& 1 = 0 ∧ (11:Nat) &&& 2 ≠ 0)) ∧
        (11:Nat) &&& 0xff00 ≠ 0x7800)) := by
  decide

/-- C5 witness at the fee-delegated value-transfer tag 9. -/
theorem C5_witness :
    (9:Nat) < 65536 ∧
    (TxType.IsFeeDelegatedTransaction 9 = true ↔
      (((9:Nat) &&& 1 ≠ 0 ∨ (9:Nat) &&& 2 ≠ 0) ∧ (9:Nat) &&& 0xff00 ≠ 0x7800)) :=
  ⟨by decide, (C5_feeDelegated_iff 9 (by decide)).1⟩

/-- C4 counterexample: TxTypeAccountCreation is in the declared enumeration,
yet NewTxInternalData fails on it with the undefined-tx-type error — its
switch case is commented out in the source — refuting "succeeds for every
declared tag". -/
theorem C4_counterexample :
    TxTypeAccountCreation ∈ declaredTxTypes ∧
    NewTxInternalData TxTypeAccountCreation = .error "undefined tx type" := by
  constructor
  · decide
  · rfl

/-- C4 amended: NewTxInternalData succeeds, with Type() returning the
requested tag, exactly on the 25 constructible tags (the declared enumeration
minus the disabled AccountCreation and Batch tags and the two sentinels);
every other 16-bit value — those four included — fails with the
undefined-tx-type error. -/
theorem C4_registry_roundTrip :
    (∀ t ∈ constructibleTxTypes,
      ∃ v, NewTxInternalData t = .ok v ∧ TxInternalData.Type v = t) ∧
    (∀ t : Nat, t ∉ constructibleTxTypes →
      NewTxInternalData t = .error "undefined tx type") := by
  constructor
  · have h : ∀ t ∈ constructibleTxTypes, NewTxInternalData t = .ok ⟨t⟩ := by decide
    intro t htm
    exact ⟨⟨t⟩, h t htm, rfl⟩
  · intro t htm
    simp only [constructibleTxTypes, List.mem_cons, List.not_mem_nil, or_false, not_or] at htm
    obtain ⟨h1, h2, h3, h4, h5, h6, h7, h8, h9, h10, h11, h12, h13,
      h14, h15, h16, h17, h18, h19, h20, h21, h22, h23, h24, h25⟩ := htm
    unfold NewTxInternalData
    rw [if_neg h1, if_neg h2, if_neg h3, if_neg h4, if_neg h5, if_neg h6, if_neg h7,
      if_neg h8, if_neg h9, if_neg h10, if_neg h11, if_neg h12, if_neg h13, if_neg h14,
      if_neg h15, if_neg h16, if_neg h17, if_neg h18, if_neg h19, if_neg h20, if_neg h21,
      if_neg h22, if_neg h23, if_neg h24, if_neg h25]

/-- C4 witness at the value-transfer tag and the disabled Batch tag. -/
theorem C4_witness :
    TxTypeValueTransfer ∈ constructibleTxTypes ∧
    (∃ v, NewTxInternalData TxTypeValueTransfer = .ok v ∧
      TxInternalData.Type v = TxTypeValueTransfer) ∧
    TxTypeBatch ∉ constructibleTxTypes ∧
    NewTxInternalData TxTypeBatch = .error "undefined tx type" :=
  ⟨by decide, C4_registry_roundTrip.1 TxTypeValueTransfer (by decide), by decide,
   C4_registry_roundTrip.2 TxTypeBatch (by decide)⟩

/-- C8 counterexample: TxTypeBatch is in the declared enumeration but absent
from the static gas table, so GetTxGasForTxType fails on it — refuting
"never fails for an enumerated type". -/
theorem C8_counterexample :
    TxTypeBatch ∈ declaredTxTypes ∧
    GetTxGasForTxType kaiaParams TxTypeBatch =
      .error "cannot find txGas for txType TxTypeBatch" := by
  constructor
  · decide
  · rfl

/-- C8 amended: GetTxGasForTxType succeeds exactly on the 26 tags of the
static table (the declared enumeration minus Batch and the two sentinels) and
fails with the descriptive "cannot find txGas for txType" error elsewhere;
in every family, the fee-delegated entry is the family base plus the flat
delegation surcharge and the with-ratio entry the base plus the distinct
ratio surcharge. -/
theorem C8_gasTable (P : GasParams) :
    (∀ t ∈ gasMapTxTypes, (GetTxGasForTxType P t).isOk = true) ∧
    (∀ t : Nat, t ∉ gasMapTxTypes →
      GetTxGasForTxType P t = .error ("cannot find txGas for txType " ++ TxType.string t)) ∧
    (∀ trip ∈ feeDelegationTriples,
      txTypeToGasMap P trip.2.1 = (txTypeToGasMap P trip.1).map (fun g => g + P.TxGasFeeDelegated) ∧
      txTypeToGasMap P trip.2.2 = (txTypeToGasMap P trip.1).map (fun g => g + P.TxGasFeeDelegatedWithRatio)) := by
  refine ⟨?_, ?_, ?_⟩
  · intro t htm
    simp only [gasMapTxTypes, List.mem_cons, List.not_mem_nil, or_false] at htm
    rcases htm with rfl|rfl|rfl|rfl|rfl|rfl|rfl|rfl|rfl|rfl|rfl|rfl|rfl|
      rfl|rfl|rfl|rfl|rfl|rfl|rfl|rfl|rfl|rfl|rfl|rfl|rfl <;> rfl
  · intro t htm
    simp only [gasMapTxTypes, List.mem_cons, List.not_mem_nil, or_false, not_or] at htm
    obtain ⟨g1, g2, g3, g4, g5, g6, g7, g8, g9, g10, g11, g12, g13, g14,
      g15, g16, g17, g18, g19, g20, g21, g22, g23, g24, g25, g26⟩ := htm
    unfold GetTxGasForTxType txTypeToGasMap
    rw [if_neg g1, if_neg g2, if_neg g3, if_neg g4, if_neg g5, if_neg g6, if_neg g7,
      if_neg g8, if_neg g9, if_neg g10, if_neg g11, if_neg g12, if_neg g13, if_neg g14,
      if_neg g15, if_neg g16, if_neg g17, if_neg g18, if_neg g19, if_neg g20, if_neg g21,
      if_neg g22, if_neg g23, if_neg g24, if_neg g25, if_neg g26]
  · intro trip htm
    simp only [feeDelegationTriples, List.mem_cons, List.not_mem_nil, or_false] at htm
    rcases htm with rfl|rfl|rfl|rfl|rfl|rfl|rfl <;> exact ⟨rfl, rfl⟩

/-- C8 witness at the value-transfer and Batch tags under the documented
constant table. -/
theorem C8_witness :
    TxTypeValueTransfer ∈ gasMapTxTypes ∧
    (GetTxGasForTxType kaiaParams TxTypeValueTransfer).isOk = true ∧
    TxTypeBatch ∉ gasMapTxTypes ∧
    GetTxGasForTxType kaiaParams TxTypeBatch =
      .error ("cannot find txGas for txType " ++ TxType.string TxTypeBatch) :=
  ⟨by decide, (C8_gasTable kaiaParams).1 TxTypeValueTransfer (by decide), by decide,
   (C8_gasTable kaiaParams).2.1 TxTypeBatch (by decide)⟩

/-- C9: for the three contract-execution-family types and every account
snapshot, validate7702 passes iff the recipient is a contract account or an
externally-owned account whose code hash differs from the empty-code hash; a
non-existent recipient or a codeless EOA fails with the
recipient-must-have-code error.  The embedding is a pure function of the
read-only snapshot, so no state is mutated. -/
theorem C9_validate7702_contractExecution :
    ∀ (st : Nat → Option Account) (t fromAddr toAddr : Nat),
    (t = TxTypeSmartContractExecution ∨ t = TxTypeFeeDelegatedSmartContractExecution ∨
      t = TxTypeFeeDelegatedSmartContractExecutionWithRatio) →
    ((validate7702 st t fromAddr toAddr = .ok () ↔
      (∃ acc, st toAddr = some acc ∧
        (acc = Account.sca ∨ ∃ ch, acc = Account.eoa ch ∧ ch ≠ emptyCodeHash))) ∧
     ((st toAddr = none ∨ st toAddr = some (Account.eoa emptyCodeHash)) →
      validate7702 st t fromAddr toAddr = .error KError.toMustBeEOAWithCodeOrSCA)) := by
  intro st t fa ta ht
  have hgroup : validate7702 st t fa ta =
      match st ta with
      | none => .error .toMustBeEOAWithCodeOrSCA
      | some .sca => .ok ()
      | some (.eoa ch) =>
        if ch = emptyCodeHash then .error .toMustBeEOAWithCodeOrSCA else .ok () := by
    rcases ht with rfl | rfl | rfl <;>
      (unfold validate7702; rw [if_neg (by decide), if_neg (by decide), if_pos (by decide)])
  rw [hgroup]
  rcases hacc : st ta with _ | acc
  · simp
  · rcases acc with ch | _
    · by_cases hch : ch = emptyCodeHash
      · subst hch
        simp
      · simp [hch]
    · simp

/-- C9 witness on a contract-account snapshot and an empty snapshot. -/
theorem C9_witness :
    (TxTypeSmartContractExecution = TxTypeSmartContractExecution ∨
      TxTypeSmartContractExecution = TxTypeFeeDelegatedSmartContractExecution ∨
      TxTypeSmartContractExecution = TxTypeFeeDelegatedSmartContractExecutionWithRatio) ∧
    validate7702 (fun _ => some Account.sca) TxTypeSmartContractExecution 1 2 = .ok () ∧
    validate7702 (fun _ => none) TxTypeSmartContractExecution 1 2 =
      .error KError.toMustBeEOAWithCodeOrSCA := by
  refine ⟨Or.inl rfl, ?_, ?_⟩
  · exact (C9_validate7702_contractExecution (fun _ => some Account.sca)
      TxTypeSmartContractExecution 1 2 (Or.inl rfl)).1.mpr
      ⟨Account.sca, rfl, Or.inl rfl⟩
  · exact (C9_validate7702_contractExecution (fun _ => none)
      TxTypeSmartContractExecution 1 2 (Or.inl rfl)).2 (Or.inl rfl)

/-- A run of non-zero bytes has no zero bytes. -/
theorem countZeroBytes_replicate_one (n : Nat) :
    countZeroBytes (List.replicate n 1) = 0 := by
  induction n with
  | zero => rfl
  | succ k ih => simp [countZeroBytes, List.replicate_succ, List.countP_cons]

/-- C3: with the Istanbul gate active and Prague inactive, the payload is
priced at the single flat per-byte price with no zero/non-zero distinction —
a non-creating call costs the base call cost plus the flat price times the
payload size; with Prague active, zero bytes cost the cheap EIP-2028
zero-byte price and non-zero bytes the higher EIP-2028 non-zero price. -/
theorem C3_payload_pricing (P : GasParams) (data : List Nat) (r : Rules)
    (hwf : P.WellFormed) (hIstanbul : r.IsIstanbul = true) :
    (r.IsPrague = false →
      P.TxGas + data.length * P.TxDataGas ≤ MaxUint64 →
      IntrinsicGas P data none none false r = .ok (P.TxGas + data.length * P.TxDataGas)) ∧
    (r.IsPrague = true →
      P.TxGas + (data.length - countZeroBytes data) * P.TxDataNonZeroGasEIP2028
        + countZeroBytes data * P.TxDataZeroGas ≤ MaxUint64 →
      IntrinsicGas P data none none false r = .ok
        (P.TxGas + (data.length - countZeroBytes data) * P.TxDataNonZeroGasEIP2028
          + countZeroBytes data * P.TxDataZeroGas)) := by
  have hz : countZeroBytes data ≤ data.length := List.countP_le_length _
  constructor
  · intro hp hle
    have hexact : intrinsicGasExact P data none none false r
        = P.TxGas + data.length * P.TxDataGas := by
      have key : (data.length - countZeroBytes data) * P.TxDataGas
          + countZeroBytes data * P.TxDataGas = data.length * P.TxDataGas := by
        rw [← Nat.add_mul, Nat.sub_add_cancel hz]
      simp only [intrinsicGasExact, payloadCostExact, listCostExact, hIstanbul, hp,
        if_true, Bool.false_eq_true, if_false, Bool.and_false, Bool.false_and, add_zero]
      omega
    rw [← hexact] at hle ⊢
    exact IntrinsicGas_ok_of_exact_le P data none none false r hwf hle
  · intro hp hle
    have hexact : intrinsicGasExact P data none none false r
        = P.TxGas + (data.length - countZeroBytes data) * P.TxDataNonZeroGasEIP2028
          + countZeroBytes data * P.TxDataZeroGas := by
      simp only [intrinsicGasExact, payloadCostExact, listCostExact, hIstanbul, hp,
        if_true, Bool.false_eq_true, if_false, Bool.and_false, Bool.false_and, add_zero]
    rw [← hexact] at hle ⊢
    exact IntrinsicGas_ok_of_exact_le P data none none false r hwf hle

/-- C3 witness, the spec's end-to-end scenario: a 64-byte payload of 32 zero
and 32 non-zero bytes in a plain non-creating call under Istanbul costs
21000 + 64 x 100 = 27400. -/
theorem C3_witness :
    IntrinsicGas kaiaParams (List.replicate 32 0 ++ List.replicate 32 1) none none false
      ⟨true, false, false⟩ = .ok 27400 := by
  have h := (C3_payload_pricing kaiaParams (List.replicate 32 0 ++ List.replicate 32 1)
    ⟨true, false, false⟩ (by decide) rfl).1 rfl (by decide)
  exact h

/-- C2 amended: inside IntrinsicGasPayload and IntrinsicGasPayloadLegacy
every additive and multiplicative step of the payload and word-size cost is
overflow-checked — the functions return GasOverflow exactly when the exact
cost exceeds uint64 and otherwise the exact unwrapped value — and IntrinsicGas
propagates the error; the access-list and authorization-list surcharges are
NOT checked (see the counterexample). -/
theorem C2_overflow_guard (P : GasParams) (gas : Nat) (data : List Nat)
    (cc : Bool) (r : Rules) (al : Option AccessList)
    (auth : Option (List SetCodeAuthorization))
    (hwf : P.WellFormed) (hgas : gas ≤ MaxUint64) :
    (IntrinsicGasPayload P gas data cc r = .error .gasUintOverflow ↔
      MaxUint64 < payloadCostExact P gas data cc r) ∧
    (payloadCostExact P gas data cc r ≤ MaxUint64 →
      IntrinsicGasPayload P gas data cc r = .ok (payloadCostExact P gas data cc r)) ∧
    (IntrinsicGasPayloadLegacy P gas data = .error .gasUintOverflow ↔
      MaxUint64 < payloadCostLegacyExact P gas data) ∧
    (payloadCostLegacyExact P gas data ≤ MaxUint64 →
      IntrinsicGasPayloadLegacy P gas data = .ok (payloadCostLegacyExact P gas data)) ∧
    (r.IsIstanbul = true →
      MaxUint64 < payloadCostExact P (if cc then P.TxGasContractCreation else P.TxGas) data cc r →
      IntrinsicGas P data al auth cc r = .error .gasUintOverflow) := by
  obtain ⟨p1, p2, p3, p4, p5, p6, p7⟩ := hwf
  have hpos1 : 0 < (if r.IsPrague then P.TxDataNonZeroGasEIP2028 else P.TxDataGas) := by
    split_ifs <;> assumption
  have hpos2 : 0 < (if r.IsPrague then P.TxDataZeroGas else P.TxDataGas) := by
    split_ifs <;> assumption
  have hchar := IntrinsicGasPayload_eq P gas data cc r hgas hpos1 hpos2 p5
  have hcharL := IntrinsicGasPayloadLegacy_eq P gas data hgas p3 p2
  refine ⟨?_, ?_, ?_, ?_, ?_⟩
  · rw [hchar]
    by_cases h : payloadCostExact P gas data cc r ≤ MaxUint64
    · rw [if_pos h]
      simp
      omega
    · rw [if_neg h]
      simp
      omega
  · intro h
    rw [hchar, if_pos h]
  · rw [hcharL]
    by_cases h : payloadCostLegacyExact P gas data ≤ MaxUint64
    · rw [if_pos h]
      simp
      omega
    · rw [if_neg h]
      simp
      omega
  · intro h
    rw [hcharL, if_pos h]
  · intro hist hover
    have hbase : (if cc then P.TxGasContractCreation else P.TxGas) ≤ MaxUint64 := by
      split_ifs <;> assumption
    simp only [IntrinsicGas, hist, if_true]
    rw [IntrinsicGasPayload_eq P _ data cc r hbase hpos1 hpos2 p5, if_neg (by omega)]
    rfl

/-- C2 witness: a payload cost exceeding uint64 yields GasOverflow. -/
theorem C2_witness :
    IntrinsicGasPayload kaiaParams MaxUint64 [1] false ⟨true, false, false⟩
      = .error .gasUintOverflow := by
  have h := (C2_overflow_guard kaiaParams MaxUint64 [1] false ⟨true, false, false⟩
    none none (by decide) (le_refl _)).1
  exact h.mpr (by decide)

/-- Helper shared by the C2 and C7 counterexamples: on any 184467440737095306-byte
payload with no zero bytes, the checked payload cost reaches
18446744073709551600, just below MaxUint64, and the unchecked access-list
addition of 2400 then wraps modulo 2^64 to 2384, which IntrinsicGas reports
as success. -/
theorem intrinsicGas_accessList_wrap_general (d : List Nat)
    (hz : countZeroBytes d = 0) (hlen : d.length = 184467440737095306) :
    IntrinsicGas kaiaParams d (some [⟨0, []⟩]) none false ⟨true, false, false⟩
      = .ok 2384 := by
  have hexact : payloadCostExact kaiaParams kaiaParams.TxGas d false
      ⟨true, false, false⟩ = 18446744073709551600 := by
    simp only [payloadCostExact, hz, hlen,
      show kaiaParams.TxDataGas = 100 from rfl, show kaiaParams.TxGas = 21000 from rfl]
    norm_num
  simp only [IntrinsicGas, Bool.false_eq_true, if_false, if_true]
  rw [IntrinsicGasPayload_eq kaiaParams kaiaParams.TxGas _ false ⟨true, false, false⟩
    (by decide) (by decide) (by decide) (by decide)]
  rw [hexact, if_pos (by decide)]
  simp only [except_bind_ok]
  norm_num [AccessList.StorageKeys, UInt64Mod,
    show kaiaParams.TxAccessListAddressGas = 2400 from rfl,
    show kaiaParams.TxAccessListStorageKeyGas = 1900 from rfl]

/-- The wrap instantiated on a concrete all-non-zero payload. -/
theorem intrinsicGas_accessList_wraps :
    IntrinsicGas kaiaParams (List.replicate 184467440737095306 1)
      (some [⟨0, []⟩]) none false ⟨true, false, false⟩ = .ok 2384 :=
  intrinsicGas_accessList_wrap_general _ (countZeroBytes_replicate_one _)
    (List.length_replicate _ _)

/-- C2 counterexample: an input on which an addition of the access-list cost
exceeds the uint64 range, yet IntrinsicGas silently wraps to 2384 — below
even the base call cost — and reports success instead of GasOverflow. -/
theorem C2_counterexample :
    IntrinsicGas kaiaParams (List.replicate 184467440737095306 1)
      (some [⟨0, []⟩]) none false ⟨true, false, false⟩ = .ok 2384 ∧
    MaxUint64 < 18446744073709551600 + 2400 ∧ (2384:Nat) < kaiaParams.TxGas :=
  ⟨intrinsicGas_accessList_wraps, by decide, by decide⟩

/-- Zero-byte counts add over concatenation. -/
theorem countZeroBytes_append (a b : List Nat) :
    countZeroBytes (a ++ b) = countZeroBytes a + countZeroBytes b := by
  simp [countZeroBytes, List.countP_append]

/-- C7 amended: intrinsic gas is monotonically non-decreasing under payload
extension whenever both computations succeed AND the exact extended cost
including the unchecked list surcharges still fits in uint64 (without that
proviso the unchecked access-list addition can wrap, see the
counterexample). -/
theorem C7_intrinsicGas_monotone (P : GasParams) (r : Rules) (al : Option AccessList)
    (auth : Option (List SetCodeAuthorization)) (cc : Bool) (d e : List Nat) (g1 g2 : Nat)
    (hwf : P.WellFormed)
    (h1 : IntrinsicGas P d al auth cc r = .ok g1)
    (h2 : IntrinsicGas P (d ++ e) al auth cc r = .ok g2)
    (hnw : intrinsicGasExact P (d ++ e) al auth cc r ≤ MaxUint64) :
    g1 ≤ g2 := by
  have hmono := intrinsicGasExact_mono P al auth cc r d e
  have e1 := IntrinsicGas_ok_of_exact_le P d al auth cc r hwf (le_trans hmono hnw)
  have e2 := IntrinsicGas_ok_of_exact_le P (d ++ e) al auth cc r hwf hnw
  rw [e1] at h1
  rw [e2] at h2
  injection h1 with h1
  injection h2 with h2
  omega

/-- C7 witness on a one-byte payload extended by one byte. -/
theorem C7_witness :
    IntrinsicGas kaiaParams [1] none none false ⟨true, false, false⟩ = .ok 21100 ∧
    IntrinsicGas kaiaParams ([1] ++ [0]) none none false ⟨true, false, false⟩ = .ok 21200 ∧
    (21100:Nat) ≤ 21200 := by
  refine ⟨by decide, by decide, ?_⟩
  exact C7_intrinsicGas_monotone kaiaParams ⟨true, false, false⟩ none none false [1] [0]
    21100 21200 (by decide) (by decide) (by decide) (by decide)

/-- C7 counterexample: with one access-list entry, a 100-byte payload costs
33400, while an extension of it (appending non-zero bytes) drives the
unchecked access-list addition past 2^64, wrapping to 2384 < 33400 — both
calls succeed, refuting unconditional monotonicity. -/
theorem C7_counterexample :
    IntrinsicGas kaiaParams (List.replicate 100 1) (some [⟨0, []⟩]) none false
      ⟨true, false, false⟩ = .ok 33400 ∧
    IntrinsicGas kaiaParams (List.replicate 100 1 ++ List.replicate 184467440737095206 1)
      (some [⟨0, []⟩]) none false ⟨true, false, false⟩ = .ok 2384 ∧
    (2384:Nat) < 33400 := by
  refine ⟨by decide, ?_, by decide⟩
  apply intrinsicGas_accessList_wrap_general
  · rw [countZeroBytes_append, countZeroBytes_replicate_one, countZeroBytes_replicate_one]
  · rw [List.length_append, List.length_replicate, List.length_replicate]
